import Mathlib

/-!
Verification of the error-classifier core of the `rash` crate
(`src/error.rs`): the `RashError` enum, its derived equality, its
`thiserror`-generated `Display` rendering, and the
`format_kernel_error_message` routine that renders a kernel failure
(errno + strerror) through the `LibCWrapper` capability boundary.
-/

/-- Model of Rust's `std::str::Utf8Error`: the byte index up to which the
input was valid UTF-8, and the length of the invalid sequence
(`none` when the input ended inside an incomplete sequence). -/
structure Utf8Error where
  valid_up_to : Nat
  error_len : Option Nat
deriving DecidableEq, Repr

/-- Model of `Utf8Error`'s `Display` implementation (`e.to_string()` in
the source). -/
def Utf8Error.to_display_string (e : Utf8Error) : String :=
  match e.error_len with
  | some n =>
      "invalid utf-8 sequence of " ++ toString n ++ " bytes from index "
        ++ toString e.valid_up_to
  | none =>
      "incomplete utf-8 byte sequence from index " ++ toString e.valid_up_to

/-- Second-byte constraint of a three-byte UTF-8 sequence, as in Rust's
`core::str::validations::run_utf8_validation` (first byte `0xE0..=0xEF`). -/
def utf8_second_ok_3 (b b2 : Nat) : Prop :=
  (b = 0xE0 ∧ 0xA0 ≤ b2 ∧ b2 ≤ 0xBF)
    ∨ (0xE1 ≤ b ∧ b ≤ 0xEC ∧ 0x80 ≤ b2 ∧ b2 ≤ 0xBF)
    ∨ (b = 0xED ∧ 0x80 ≤ b2 ∧ b2 ≤ 0x9F)
    ∨ (0xEE ≤ b ∧ b ≤ 0xEF ∧ 0x80 ≤ b2 ∧ b2 ≤ 0xBF)

instance (b b2 : Nat) : Decidable (utf8_second_ok_3 b b2) := by
  unfold utf8_second_ok_3; infer_instance

/-- Second-byte constraint of a four-byte UTF-8 sequence, as in Rust's
`run_utf8_validation` (first byte `0xF0..=0xF4`). -/
def utf8_second_ok_4 (b b2 : Nat) : Prop :=
  (b = 0xF0 ∧ 0x90 ≤ b2 ∧ b2 ≤ 0xBF)
    ∨ (0xF1 ≤ b ∧ b ≤ 0xF3 ∧ 0x80 ≤ b2 ∧ b2 ≤ 0xBF)
    ∨ (b = 0xF4 ∧ 0x80 ≤ b2 ∧ b2 ≤ 0x8F)

instance (b b2 : Nat) : Decidable (utf8_second_ok_4 b b2) := by
  unfold utf8_second_ok_4; infer_instance

/-- UTF-8 validation and decoding of a byte sequence, mirroring Rust's
`core::str::validations::run_utf8_validation` (which backs
`CStr::to_str`): on failure it reports the byte index of the first
invalid sequence and the invalid sequence's length (`none` when the
input ends mid-sequence).  `i` is the byte index of the head of the
remaining input. -/
def utf8_decode_from : List Nat → Nat → Except Utf8Error (List Char)
  | [], _ => .ok []
  | b :: rest, i =>
    if b < 0x80 then
      match utf8_decode_from rest (i + 1) with
      | .ok cs => .ok (Char.ofNat b :: cs)
      | .error e => .error e
    else if 0xC2 ≤ b ∧ b ≤ 0xDF then
      match rest with
      | [] => .error ⟨i, none⟩
      | b2 :: rest2 =>
        if 0x80 ≤ b2 ∧ b2 ≤ 0xBF then
          match utf8_decode_from rest2 (i + 2) with
          | .ok cs => .ok (Char.ofNat ((b - 0xC0) * 0x40 + (b2 - 0x80)) :: cs)
          | .error e => .error e
        else .error ⟨i, some 1⟩
    else if 0xE0 ≤ b ∧ b ≤ 0xEF then
      match rest with
      | [] => .error ⟨i, none⟩
      | b2 :: rest2 =>
        if utf8_second_ok_3 b b2 then
          match rest2 with
          | [] => .error ⟨i, none⟩
          | b3 :: rest3 =>
            if 0x80 ≤ b3 ∧ b3 ≤ 0xBF then
              match utf8_decode_from rest3 (i + 3) with
              | .ok cs =>
                  .ok (Char.ofNat
                    ((b - 0xE0) * 0x1000 + (b2 - 0x80) * 0x40 + (b3 - 0x80)) :: cs)
              | .error e => .error e
            else .error ⟨i, some 2⟩
        else .error ⟨i, some 1⟩
    else if 0xF0 ≤ b ∧ b ≤ 0xF4 then
      match rest with
      | [] => .error ⟨i, none⟩
      | b2 :: rest2 =>
        if utf8_second_ok_4 b b2 then
          match rest2 with
          | [] => .error ⟨i, none⟩
          | b3 :: rest3 =>
            if 0x80 ≤ b3 ∧ b3 ≤ 0xBF then
              match rest3 with
              | [] => .error ⟨i, none⟩
              | b4 :: rest4 =>
                if 0x80 ≤ b4 ∧ b4 ≤ 0xBF then
                  match utf8_decode_from rest4 (i + 4) with
                  | .ok cs =>
                      .ok (Char.ofNat
                        ((b - 0xF0) * 0x40000 + (b2 - 0x80) * 0x1000
                          + (b3 - 0x80) * 0x40 + (b4 - 0x80)) :: cs)
                  | .error e => .error e
                else .error ⟨i, some 3⟩
            else .error ⟨i, some 2⟩
        else .error ⟨i, some 1⟩
    else .error ⟨i, some 1⟩

/-- Model of `CStr::to_str` followed by `to_string()` on success: decode
the bytes of the C string (terminator excluded) as UTF-8. -/
def utf8_decode (bytes : List Nat) : Except Utf8Error String :=
  match utf8_decode_from bytes 0 with
  | .ok cs => .ok (String.mk cs)
  | .error e => .error e

/-- Model of the `LibCWrapper` capability as seen by
`format_kernel_error_message`: the `c_int` value read through the
pointer returned by `__errno_location()`, and for each error code the
bytes (terminating NUL excluded) of the C string returned by
`strerror`. -/
structure LibCWrapper where
  errno_location_value : Int
  strerror_bytes : Int → List Nat

/-- A call made through the `LibCWrapper` boundary by the formatter. -/
inductive LibCCall where
  | errno_location : LibCCall
  | strerror : Int → LibCCall
deriving DecidableEq, Repr

/-- The `RashError` enum of `src/error.rs`: a closed set of four
variants, each carrying a single message string. -/
inductive RashError where
  | NullByteInCommand : String → RashError
  | KernelError : String → RashError
  | FailedToReadStdout : String → RashError
  | FailedToReadStderr : String → RashError
deriving DecidableEq, Repr

/-- The structural equality generated by `derive(PartialEq)` on
`RashError`: same variant and equal message strings. -/
def RashError.beq : RashError → RashError → Bool
  | .NullByteInCommand m1, .NullByteInCommand m2 => m1 == m2
  | .KernelError m1, .KernelError m2 => m1 == m2
  | .FailedToReadStdout m1, .FailedToReadStdout m2 => m1 == m2
  | .FailedToReadStderr m1, .FailedToReadStderr m2 => m1 == m2
  | _, _ => false

/-- `RashError::format_kernel_error_message`, instrumented with the list
of wrapper calls it makes, in order.  Mirrors the source: read the errno
value through `__errno_location()`, call `strerror(errno)`, decode the C
string as UTF-8 falling back to the decode error's own text, then build
the fixed-format message. -/
def RashError.format_kernel_error_message_traced
    (wrapper : LibCWrapper) (description : String) : String × List LibCCall :=
  let errno := wrapper.errno_location_value
  let strerror :=
    match utf8_decode (wrapper.strerror_bytes errno) with
    | .ok s => s
    | .error e => e.to_display_string
  ("Received errno " ++ toString errno ++ ", Description: " ++ description
      ++ ", strerror output: " ++ strerror ++ ".",
    [LibCCall.errno_location, LibCCall.strerror errno])

/-- `RashError::format_kernel_error_message`: the returned message
string. -/
def RashError.format_kernel_error_message
    (wrapper : LibCWrapper) (description : String) : String :=
  (RashError.format_kernel_error_message_traced wrapper description).1

/-- The `MockLibCWrapper` of the tests in `src/error.rs`:
`__errno_location` points at `7`, and `strerror` always returns the C
string "Hello". -/
def MockLibCWrapper : LibCWrapper where
  errno_location_value := 7
  strerror_bytes := fun _ => [72, 101, 108, 108, 111]

/-- Rust's `char::escape_debug` as used by `Debug` for `str` (double
quotes escaped, single quotes not): named escapes for tab, carriage
return, newline, backslash, double quote and NUL; `\u` escapes for the
remaining ASCII control characters and DEL.  Scalar values above
`0x7F` are modelled as printable and kept verbatim. -/
def rust_char_escape_debug (c : Char) : String :=
  if c = Char.ofNat 9 then "\\t"
  else if c = Char.ofNat 13 then "\\r"
  else if c = Char.ofNat 10 then "\\n"
  else if c = Char.ofNat 92 then "\\\\"
  else if c = Char.ofNat 34 then "\\\""
  else if c = Char.ofNat 0 then "\\0"
  else if c.toNat < 0x20 ∨ c.toNat = 0x7F then
    "\\u\x7b" ++ String.mk (Nat.toDigits 16 c.toNat) ++ "\x7d"
  else String.singleton c

/-- Rust's `Debug` rendering of a string (the `{:?}` format used by the
`#[error(...)]` attributes): the escaped characters surrounded by double
quotes. -/
def rust_debug_str (s : String) : String :=
  "\"" ++ String.join (s.data.map rust_char_escape_debug) ++ "\""

/-- The `Display` implementation generated by `thiserror`'s
`#[error(...)]` attributes on `RashError`: each variant's format string
interpolates the message with `{:?}` (Debug) formatting. -/
def RashError.to_display_string : RashError → String
  | .NullByteInCommand m => "Null byte in command: " ++ rust_debug_str m
  | .KernelError m => rust_debug_str m
  | .FailedToReadStdout m => "Couldn't read stdout: " ++ rust_debug_str m
  | .FailedToReadStderr m => "Couldn't read stderr: " ++ rust_debug_str m

/-- The discriminant of a `RashError` variant. -/
def RashError.tag_of : RashError → Fin 4
  | .NullByteInCommand _ => 0
  | .KernelError _ => 1
  | .FailedToReadStdout _ => 2
  | .FailedToReadStderr _ => 3

/-- The message string carried by a `RashError` variant. -/
def RashError.msg_of : RashError → String
  | .NullByteInCommand m => m
  | .KernelError m => m
  | .FailedToReadStdout m => m
  | .FailedToReadStderr m => m

/-- Rebuild a `RashError` from a discriminant and a message string. -/
def RashError.of_tag (t : Fin 4) (m : String) : RashError :=
  if t.val = 0 then .NullByteInCommand m
  else if t.val = 1 then .KernelError m
  else if t.val = 2 then .FailedToReadStdout m
  else .FailedToReadStderr m

/-- An exit path of a simulated command execution: success, a kernel
failure at each of the five syscall operations, or a decode failure on
one of the captured outputs. -/
inductive ExitPath where
  | success : ExitPath
  | popenFail : ExitPath
  | filenoFail : ExitPath
  | dupFail : ExitPath
  | dup2Fail : ExitPath
  | pcloseFail : ExitPath
  | stdoutDecodeFail : ExitPath
  | stderrDecodeFail : ExitPath
deriving DecidableEq, Repr

/-- A resource the simulated driver can hold: the piped-process stream
returned by `popen`, or the descriptor copy returned by `dup`. -/
inductive DriverRes where
  | stream : DriverRes
  | savedFd : DriverRes
deriving DecidableEq, Repr

/-- An acquisition or release of a driver resource, as counted by an
instrumented test double. -/
inductive DriverEv where
  | acquire : DriverRes → DriverEv
  | release : DriverRes → DriverEv
deriving DecidableEq, Repr

/-- Modelled from the spec: the command-execution driver itself is not
under `src/` (only the error classifier is), so its resource behaviour
is taken from the spec's control flow — open a pipe to a shell
(`popen`), resolve its descriptor (`fileno`), duplicate a standard
descriptor to preserve a copy before redirection (`dup`), redirect
(`dup2`), read and decode both outputs, restore and close the duplicate,
and close the process stream (`pclose`) — with every exit path closing
exactly the resources acquired before the failing step.  The function
returns the acquire/release events of each exit path in order.  `popen`
failing acquires nothing; `pclose` closes (invalidates) the stream even
when it reports failure. -/
def driver_events : ExitPath → List DriverEv
  | .popenFail => []
  | .filenoFail => [.acquire .stream, .release .stream]
  | .dupFail => [.acquire .stream, .release .stream]
  | .dup2Fail =>
      [.acquire .stream, .acquire .savedFd, .release .savedFd, .release .stream]
  | .stdoutDecodeFail =>
      [.acquire .stream, .acquire .savedFd, .release .savedFd, .release .stream]
  | .stderrDecodeFail =>
      [.acquire .stream, .acquire .savedFd, .release .savedFd, .release .stream]
  | .pcloseFail =>
      [.acquire .stream, .acquire .savedFd, .release .savedFd, .release .stream]
  | .success =>
      [.acquire .stream, .acquire .savedFd, .release .savedFd, .release .stream]

/-- C1: for every wrapper and every caller-supplied description `d`, when
decoding the `strerror` text of the current errno succeeds with text
`s`, `format_kernel_error_message` returns exactly
"Received errno e, Description: d, strerror output: s." with the
description field being the caller's context string, not the errno
text. -/
theorem format_kernel_error_message_ok_decode
    (w : LibCWrapper) (d s : String)
    (h : utf8_decode (w.strerror_bytes w.errno_location_value) = .ok s) :
    RashError.format_kernel_error_message w d =
      "Received errno " ++ toString w.errno_location_value ++ ", Description: "
        ++ d ++ ", strerror output: " ++ s ++ "." := by
  unfold RashError.format_kernel_error_message
    RashError.format_kernel_error_message_traced
  simp only [h]

theorem format_kernel_error_message_ok_decode_witness :
    utf8_decode ((LibCWrapper.mk 5 fun _ => [79, 107]).strerror_bytes 5) = .ok "Ok" ∧
    RashError.format_kernel_error_message (LibCWrapper.mk 5 fun _ => [79, 107])
        "popen failed" =
      "Received errno 5, Description: popen failed, strerror output: Ok." :=
  ⟨rfl, format_kernel_error_message_ok_decode (LibCWrapper.mk 5 fun _ => [79, 107])
    "popen failed" "Ok" rfl⟩

/-- C2: `format_kernel_error_message` never fails: when decoding the
`strerror` bytes fails with a UTF-8 error `e`, the formatter substitutes
the decoding error's own textual representation for the strerror field
and still returns the well-formed fixed-format message. -/
theorem format_kernel_error_message_decode_fallback
    (w : LibCWrapper) (d : String) (e : Utf8Error)
    (h : utf8_decode (w.strerror_bytes w.errno_location_value) = .error e) :
    RashError.format_kernel_error_message w d =
      "Received errno " ++ toString w.errno_location_value ++ ", Description: "
        ++ d ++ ", strerror output: " ++ e.to_display_string ++ "." := by
  unfold RashError.format_kernel_error_message
    RashError.format_kernel_error_message_traced
  simp only [h]

theorem format_kernel_error_message_decode_fallback_witness :
    utf8_decode ((LibCWrapper.mk 9 fun _ => [255]).strerror_bytes 9)
        = .error ⟨0, some 1⟩ ∧
    RashError.format_kernel_error_message (LibCWrapper.mk 9 fun _ => [255]) "oops" =
      "Received errno 9, Description: oops, strerror output: invalid utf-8 sequence of 1 bytes from index 0." :=
  ⟨rfl, format_kernel_error_message_decode_fallback (LibCWrapper.mk 9 fun _ => [255])
    "oops" ⟨0, some 1⟩ rfl⟩

/-- C3: with the tests' mock wrapper (errno fixed to 7, strerror text
"Hello"), formatting with description "My description" yields exactly
"Received errno 7, Description: My description, strerror output:
Hello.". -/
theorem format_kernel_error_message_mock :
    RashError.format_kernel_error_message MockLibCWrapper "My description" =
      "Received errno 7, Description: My description, strerror output: Hello." := by
  decide

/-- C4: one invocation of `format_kernel_error_message` performs exactly
one call to the wrapper's `__errno_location` operation. -/
theorem format_kernel_error_message_one_errno_read
    (w : LibCWrapper) (d : String) :
    ((RashError.format_kernel_error_message_traced w d).2.count
        LibCCall.errno_location) = 1 := by
  rfl

/-- C5: in every invocation of `format_kernel_error_message`, the first
wrapper call is `__errno_location`, before `strerror` or any other
wrapper call; the full call trace is the errno read followed by
`strerror` applied to the captured errno value. -/
theorem format_kernel_error_message_errno_first
    (w : LibCWrapper) (d : String) :
    ((RashError.format_kernel_error_message_traced w d).2.head?
        = some LibCCall.errno_location) ∧
    (RashError.format_kernel_error_message_traced w d).2
        = [LibCCall.errno_location, LibCCall.strerror w.errno_location_value] :=
  ⟨rfl, rfl⟩

/-- C6: for each of the four variants, two values of that variant are
equal under the derived equality if and only if their message strings
are equal. -/
theorem rashError_beq_iff_message_eq (m1 m2 : String) :
    (RashError.beq (.NullByteInCommand m1) (.NullByteInCommand m2) = true ↔ m1 = m2) ∧
    (RashError.beq (.KernelError m1) (.KernelError m2) = true ↔ m1 = m2) ∧
    (RashError.beq (.FailedToReadStdout m1) (.FailedToReadStdout m2) = true ↔ m1 = m2) ∧
    (RashError.beq (.FailedToReadStderr m1) (.FailedToReadStderr m2) = true ↔ m1 = m2) := by
  simp [RashError.beq]

/-- C7: `RashError` is a closed tagged union of exactly four variants
(NullByteInCommand, KernelError, FailedToReadStdout, FailedToReadStderr),
each carrying exactly one string field: every value belongs to one of
the four variants, and the type is in bijection with a four-way tag
paired with a message string. -/
theorem rashError_closed_four_variants :
    (∀ e : RashError,
        (∃ m, e = .NullByteInCommand m) ∨ (∃ m, e = .KernelError m)
          ∨ (∃ m, e = .FailedToReadStdout m) ∨ (∃ m, e = .FailedToReadStderr m)) ∧
    Nonempty (RashError ≃ Fin 4 × String) := by
  constructor
  · intro e
    cases e with
    | NullByteInCommand m => exact Or.inl ⟨m, rfl⟩
    | KernelError m => exact Or.inr (Or.inl ⟨m, rfl⟩)
    | FailedToReadStdout m => exact Or.inr (Or.inr (Or.inl ⟨m, rfl⟩))
    | FailedToReadStderr m => exact Or.inr (Or.inr (Or.inr ⟨m, rfl⟩))
  · exact ⟨{ toFun := fun e => (e.tag_of, e.msg_of),
             invFun := fun p => RashError.of_tag p.1 p.2,
             left_inv := by intro e; cases e <;> rfl,
             right_inv := by intro p; obtain ⟨t, m⟩ := p; fin_cases t <;> rfl }⟩

/-- C8: for every exit path of the simulated command execution (success,
kernel failure at each of the five operations, decode failure of either
output), every resource acquired on that path is released exactly once:
on each path the release count of every resource equals its acquire
count, and no resource is acquired more than once. -/
theorem driver_closes_every_resource_once (p : ExitPath) (r : DriverRes) :
    ((driver_events p).count (DriverEv.release r)
        = (driver_events p).count (DriverEv.acquire r)) ∧
    (driver_events p).count (DriverEv.acquire r) ≤ 1 := by
  cases p <;> cases r <;> exact ⟨rfl, by decide⟩

/-- C9: values of different variants are never equal under the derived
equality, even when they carry identical message strings: all ordered
pairs of distinct variants with the same message compare unequal. -/
theorem rashError_beq_distinct_variants (m : String) :
    RashError.beq (.NullByteInCommand m) (.KernelError m) = false ∧
    RashError.beq (.NullByteInCommand m) (.FailedToReadStdout m) = false ∧
    RashError.beq (.NullByteInCommand m) (.FailedToReadStderr m) = false ∧
    RashError.beq (.KernelError m) (.NullByteInCommand m) = false ∧
    RashError.beq (.KernelError m) (.FailedToReadStdout m) = false ∧
    RashError.beq (.KernelError m) (.FailedToReadStderr m) = false ∧
    RashError.beq (.FailedToReadStdout m) (.NullByteInCommand m) = false ∧
    RashError.beq (.FailedToReadStdout m) (.KernelError m) = false ∧
    RashError.beq (.FailedToReadStdout m) (.FailedToReadStderr m) = false ∧
    RashError.beq (.FailedToReadStderr m) (.NullByteInCommand m) = false ∧
    RashError.beq (.FailedToReadStderr m) (.KernelError m) = false ∧
    RashError.beq (.FailedToReadStderr m) (.FailedToReadStdout m) = false :=
  ⟨rfl, rfl, rfl, rfl, rfl, rfl, rfl, rfl, rfl, rfl, rfl, rfl⟩

/-- C10: the Display rendering of each variant embeds the message in
Debug (quoted, escaped) form, not raw: KernelError renders as the
debug-quoted message, and the other variants as their fixed prefix
followed by the debug-quoted message. -/
theorem rashError_display_debug_quotes (m : String) :
    RashError.to_display_string (.NullByteInCommand m)
        = "Null byte in command: "
            ++ ("\"" ++ String.join (m.data.map rust_char_escape_debug) ++ "\"") ∧
    RashError.to_display_string (.KernelError m)
        = "\"" ++ String.join (m.data.map rust_char_escape_debug) ++ "\"" ∧
    RashError.to_display_string (.FailedToReadStdout m)
        = "Couldn't read stdout: "
            ++ ("\"" ++ String.join (m.data.map rust_char_escape_debug) ++ "\"") ∧
    RashError.to_display_string (.FailedToReadStderr m)
        = "Couldn't read stderr: "
            ++ ("\"" ++ String.join (m.data.map rust_char_escape_debug) ++ "\"") :=
  ⟨rfl, rfl, rfl, rfl⟩
